import Mathlib

set_option maxHeartbeats 1000000

/-
Verification of the connection/message-correlation engine of the TensorPipe
RPC agent (torch/csrc/distributed/rpc/tensorpipe_agent.cpp).

The client-side state (pipe registry, pending-response tables, message-id
counter, future cells) is embedded as an explicit state record; the agent's
operations (`send`, the client write/read completion callbacks, the server
response writer, the accept loop, and the zero-copy read adaptation) are
embedded as pure functions on that state.  Association lists stand for the
`std::unordered_map`s of the source.
-/

/-- Modelled from the spec: the kind tag of a `Message` (request / response /
exception); `unknown` stands for the tag of a default-constructed `Message()`.
The concrete enum lives in `message.h`, which is outside the given source. -/
inductive MessageType where
  | unknown
  | request
  | response
  | exception
deriving DecidableEq

/-- Modelled from the spec: `Message::isRequest()` holds exactly for
request-kind messages. -/
def MessageType.isRequest : MessageType → Bool
  | .request => true
  | _ => false

/-- Modelled from the spec: a request or response unit with a kind tag, a
numeric message id, an opaque payload (bytes, here characters) and zero or more
separately transferred tensor buffers, each represented by its length. -/
structure Message where
  type : MessageType
  id : Nat
  payload : List Char
  tensors : List Nat
deriving DecidableEq

/-- Default-constructed `Message()`, as passed by `pipeRead` to the callback on
a descriptor read error. -/
def Message.empty : Message :=
  { type := .unknown, id := 0, payload := [], tensors := [] }

/-- Modelled from the spec: a `FutureMessage` is a single-assignment completion
cell — pending, completed with a response, or completed with an error text.
`FutureMessage` lives in `future_message.h`, outside the given source. -/
inductive FutureState where
  | pending
  | completedOk (m : Message)
  | completedError (e : String)
deriving DecidableEq

/-- Modelled from the spec: `FutureMessage::setError` completes a pending cell
with an error; a completed cell is completed exactly once and never
overwritten. -/
def FutureState.setError (e : String) : FutureState → FutureState
  | .pending => .completedError e
  | s => s

/-- Modelled from the spec: `FutureMessage::markCompleted` completes a pending
cell with a response message. -/
def FutureState.markCompleted (m : Message) : FutureState → FutureState
  | .pending => .completedOk m
  | s => s

/-- Find the value stored under key `k` in an association list (mirrors
`std::unordered_map::find`). -/
def lookupEntry {α β : Type} [DecidableEq α] (k : α) : List (α × β) → Option β
  | [] => none
  | (k', v) :: rest => if k = k' then some v else lookupEntry k rest

/-- `l[k] = v` on an association list: replace the first entry keyed `k`, or
append a new entry when `k` is absent (mirrors `std::unordered_map::operator[]`
assignment and `emplace`). -/
def setEntry {β : Type} (k : Nat) (v : β) : List (Nat × β) → List (Nat × β)
  | [] => [(k, v)]
  | (k', v') :: rest =>
    if k = k' then (k, v) :: rest else (k', v') :: setEntry k v rest

/-- Apply `f` to the value stored under `k`, if any. -/
def updateEntry {β : Type} (k : Nat) (f : β → β) :
    List (Nat × β) → List (Nat × β)
  | [] => []
  | (k', v') :: rest =>
    if k = k' then (k', f v') :: rest else (k', v') :: updateEntry k f rest

/-- Remove the first entry keyed `k` (mirrors `std::unordered_map::erase`). -/
def eraseEntry {β : Type} (k : Nat) : List (Nat × β) → List (Nat × β)
  | [] => []
  | (k', v') :: rest =>
    if k = k' then rest else (k', v') :: eraseEntry k rest

/-- `ClientPipe` of the source: one persistent outbound connection (`pipeId`
identifies the underlying `tensorpipe::Pipe` object obtained from
`context_->connect`), the pending-response table `pendingResponseMessage_`
mapping in-flight message ids to response-handle identifiers, and the
`readError_` flag. -/
structure ClientPipe where
  pipeId : Nat
  pendingResponseMessage : List (Nat × Nat)
  readError : Bool
deriving DecidableEq

/-- Client-side state of a `TensorPipeAgent`: the `rpcAgentRunning_` flag, the
64-bit message-id counter `nextMessageID_` (a `uint64_t` register, so `send`
advances it modulo `2^64`; starting from zero it always holds a value below
`2^64`), the registry `connectedPipes_` (worker id → `ClientPipe`), the
`workerNameToURL_` table, and a store of the `FutureMessage` cells created by
`send`, addressed by identifiers that stand for the shared pointers of the
source (`nextFutureId` and `nextPipeId` are the allocators for those
identifiers). -/
structure AgentState where
  rpcAgentRunning : Bool
  nextMessageID : Nat
  connectedPipes : List (Nat × ClientPipe)
  workerNameToURL : List (String × String)
  futures : List (Nat × FutureState)
  nextFutureId : Nat
  nextPipeId : Nat
deriving DecidableEq

/-- The synchronous failures of `TensorPipeAgent::send`: the `TORCH_CHECK` on
`requestMessage.isRequest()`, the `std::runtime_error` thrown when
`rpcAgentRunning_` is false ("RPC is no longer running on this node"), and the
`TORCH_CHECK` of `findWorkerURL` ("Unknown worker name"). -/
inductive SendError where
  | onlyForRequests
  | notRunning
  | unknownWorker (name : String)
deriving DecidableEq

/-- Result of a successful `TensorPipeAgent::send`: the post-state, the
identifier of the returned `FutureMessage`, the assigned message id, the id of
the `tensorpipe::Pipe` the request is written on, and whether that pipe was
freshly opened by `context_->connect` during this send. -/
structure SendOk where
  state : AgentState
  futureId : Nat
  messageId : Nat
  pipeId : Nat
  freshConnection : Bool
deriving DecidableEq

/-- The modulus of the source's message-id counter: `nextMessageID_` and the
message ids it yields are `uint64_t` values (a 64-bit counter), so the
post-increment wraps at `2^64`. -/
def uint64Mod : Nat := 18446744073709551616

/-- `TensorPipeAgent::send` (tensorpipe_agent.cpp lines 242-279): check the
request kind, check the running flag, resolve the worker URL, look up or
lazily create the `ClientPipe` for the destination, allocate the next message
id from the post-increment `nextMessageID_++` of the wrapping 64-bit counter,
create a pending `FutureMessage` and insert it into the pipe's pending table
under that id, all before the write is issued. -/
def TensorPipeAgent.send (st : AgentState) (toWorkerId : Nat)
    (toWorkerName : String) (requestMessage : Message) :
    Except SendError SendOk :=
  if !requestMessage.type.isRequest then
    .error .onlyForRequests
  else if !st.rpcAgentRunning then
    .error .notRunning
  else
    match lookupEntry toWorkerName st.workerNameToURL with
    | none => .error (.unknownWorker toWorkerName)
    | some _url =>
      match lookupEntry toWorkerId st.connectedPipes with
      | some clientPipe =>
        .ok
          { state :=
              { st with
                connectedPipes := setEntry toWorkerId
                  { clientPipe with
                    pendingResponseMessage := setEntry st.nextMessageID
                      st.nextFutureId clientPipe.pendingResponseMessage }
                  st.connectedPipes,
                futures := setEntry st.nextFutureId FutureState.pending st.futures,
                nextFutureId := st.nextFutureId + 1,
                nextMessageID := (st.nextMessageID + 1) % uint64Mod },
            futureId := st.nextFutureId,
            messageId := st.nextMessageID,
            pipeId := clientPipe.pipeId,
            freshConnection := false }
      | none =>
        .ok
          { state :=
              { st with
                connectedPipes := setEntry toWorkerId
                  { pipeId := st.nextPipeId,
                    pendingResponseMessage := setEntry st.nextMessageID
                      st.nextFutureId [],
                    readError := false }
                  st.connectedPipes,
                futures := setEntry st.nextFutureId FutureState.pending st.futures,
                nextFutureId := st.nextFutureId + 1,
                nextMessageID := (st.nextMessageID + 1) % uint64Mod,
                nextPipeId := st.nextPipeId + 1 },
            futureId := st.nextFutureId,
            messageId := st.nextMessageID,
            pipeId := st.nextPipeId,
            freshConnection := true }

/-- The client write-completion callback of `TensorPipeAgent::send`
(tensorpipe_agent.cpp lines 284-293): on a write error, set the error on the
captured `futureResponseMessage` and return without arming a read; on success,
leave the state alone and arm the response read (`pipeRead`).  The returned
boolean records whether a read was armed. -/
def onClientWriteDone (st : AgentState) (fid : Nat)
    (writeError : Option String) : AgentState × Bool :=
  match writeError with
  | some e =>
    ({ st with futures := updateEntry fid (FutureState.setError e) st.futures },
     false)
  | none => (st, true)

/-- The read-error branch of the client response-read callback
(tensorpipe_agent.cpp lines 296-308): under the lock, set the transport error
on every future still in the pipe's pending table, clear the table, and set
the pipe's `readError_` flag. -/
def onClientReadError (st : AgentState) (workerId : Nat) (e : String) :
    AgentState :=
  match lookupEntry workerId st.connectedPipes with
  | none => st
  | some pipe =>
    let futures' := pipe.pendingResponseMessage.foldl
      (fun fs en => updateEntry en.2 (FutureState.setError e) fs) st.futures
    let pipe' : ClientPipe :=
      { pipe with pendingResponseMessage := [], readError := true }
    { st with
      futures := futures',
      connectedPipes := setEntry workerId pipe' st.connectedPipes }

/-- The completion work dispatched to the thread pool by the client read
callback (tensorpipe_agent.cpp lines 330-342): an exception-kind response sets
the error text decoded from the payload bytes on the future; any other
response marks the future completed with the response message. -/
def completeResponse (st : AgentState) (fid : Nat) (responseMessage : Message) :
    AgentState :=
  if responseMessage.type = .exception then
    { st with
      futures := updateEntry fid
        (FutureState.setError (String.mk responseMessage.payload)) st.futures }
  else
    { st with
      futures := updateEntry fid
        (FutureState.markCompleted responseMessage) st.futures }

/-- The read-success branch of the client response-read callback
(tensorpipe_agent.cpp lines 311-342): assert the pipe is not in the error
state, look up and remove the pending future for the response's message id
(its absence is a fatal `TORCH_INTERNAL_ASSERT`, modelled as `none`), then
complete it according to the response kind.  Returns `none` exactly on the
fatal assertion paths. -/
def onClientReadSuccess (st : AgentState) (workerId : Nat)
    (responseMessage : Message) : Option AgentState :=
  match lookupEntry workerId st.connectedPipes with
  | none => none
  | some pipe =>
    if pipe.readError then
      none
    else
      match lookupEntry responseMessage.id pipe.pendingResponseMessage with
      | none => none
      | some fid =>
        let pipe' : ClientPipe :=
          { pipe with
            pendingResponseMessage :=
              eraseEntry responseMessage.id pipe.pendingResponseMessage }
        let st1 :=
          { st with
            connectedPipes := setEntry workerId pipe' st.connectedPipes }
        some (completeResponse st1 fid responseMessage)

/-- Modelled from the spec: `createExceptionResponse` (declared in `utils.h`,
outside the given source) builds an exception-kind response whose payload is
the error text and which carries the given message id. -/
def createExceptionResponse (errText : String) (id : Nat) : Message :=
  { type := .exception, id := id, payload := errText.data, tensors := [] }

/-- `TensorPipeAgent::sendCompletedResponseMessage` (tensorpipe_agent.cpp
lines 162-194): skip the write when the agent is no longer running; otherwise
stamp the completed response with the original request's message id and write
it, or, when the future completed with an error, write
`createExceptionResponse(error.what(), responseMessage.id())`.  The result is
the message written back on the connection (`none` when no write happens). -/
def TensorPipeAgent.sendCompletedResponseMessage (running : Bool)
    (futureResponseMessage : FutureState) (messageId : Nat) : Option Message :=
  if !running then
    none
  else
    match futureResponseMessage with
    | .pending => none
    | .completedOk m => some { m with id := messageId }
    | .completedError e => some (createExceptionResponse e messageId)

/-- State of the accept loop: whether an accept operation is currently armed on
the listener, and the connections handed to the server loop so far. -/
structure ListenerState where
  acceptArmed : Bool
  acceptedPipes : List Nat
deriving DecidableEq

/-- `TensorPipeAgent::onListenerAccepted` (tensorpipe_agent.cpp lines 93-110):
on an accept error, log and return without re-arming; on success, re-arm the
accept operation and hand the new connection to the server loop (`respond`). -/
def TensorPipeAgent.onListenerAccepted (st : ListenerState)
    (ev : Except String Nat) : ListenerState :=
  match ev with
  | .error _ => { st with acceptArmed := false }
  | .ok pipe =>
    { acceptArmed := true, acceptedPipes := st.acceptedPipes ++ [pipe] }

/-- Drive the accept loop over a sequence of accept completions; a completion
is only delivered while an accept operation is armed. -/
def runAcceptLoop (st : ListenerState) : List (Except String Nat) → ListenerState
  | [] => st
  | ev :: evs =>
    if st.acceptArmed then
      runAcceptLoop (TensorPipeAgent.onListenerAccepted st ev) evs
    else
      st

/-- A `tensorpipe::Message` descriptor, as delivered by `readDescriptor`: the
main payload length and the lengths of the separately transferred tensors. -/
structure TPDescriptor where
  payloadLen : Nat
  tensorLens : List Nat
deriving DecidableEq

/-- Modelled from the spec: `tensorpipeAllocateMessage` (declared in `utils.h`,
outside the given source) allocates a destination `Message` matching the
descriptor's shapes exactly. -/
def tensorpipeAllocateMessage (tpMessage : TPDescriptor) : Message :=
  { type := .unknown, id := 0,
    payload := List.replicate tpMessage.payloadLen ' ',
    tensors := tpMessage.tensorLens }

/-- The data-transfer read issued by `pipeRead` after allocation: the
destination sizes filled into the `tensorpipe::Message` (payload pointer and
one pointer per tensor) and the allocated `Message` kept alive by the capture
of the completion lambda. -/
structure ArmedDataRead where
  dstPayloadLen : Nat
  dstTensorLens : List Nat
  heldMessage : Message
deriving DecidableEq

/-- Outcome of one `pipeRead`: a fatal `TORCH_INTERNAL_ASSERT`, an immediate
callback with a descriptor error (and a default `Message()`), or the data
transfer read followed by the callback receiving the held message together
with the transfer's error status. -/
inductive PipeReadOutcome where
  | fatalAssert (s : String)
  | descriptorErrorCallback (e : String) (delivered : Message)
  | dataCallback (armed : ArmedDataRead) (dataError : Option String)
      (delivered : Message)
deriving DecidableEq

/-- Event driving one `pipeRead`: the descriptor read fails, or a descriptor
arrives and the subsequent data-transfer read completes with `dataError`. -/
inductive PipeReadEvent where
  | descriptorError (e : String)
  | descriptorArrived (d : TPDescriptor) (dataError : Option String)
deriving DecidableEq

/-- `TensorPipeAgent::pipeRead` (tensorpipe_agent.cpp lines 112-143): on a
descriptor error invoke the callback with the error and `Message()`; otherwise
allocate the destination message with `alloc` (the source calls
`tensorpipeAllocateMessage`), fatally assert that its tensor count matches the
descriptor's ("Tensor num mismatch"), fill the destination pointers, and only
then issue the data-transfer read whose completion hands the held message to
the callback. -/
def TensorPipeAgent.pipeRead (alloc : TPDescriptor → Message)
    (ev : PipeReadEvent) : PipeReadOutcome :=
  match ev with
  | .descriptorError e => .descriptorErrorCallback e Message.empty
  | .descriptorArrived d dataError =>
    let rpcMessage := alloc d
    if rpcMessage.tensors.length ≠ d.tensorLens.length then
      .fatalAssert "Tensor num mismatch"
    else
      .dataCallback
        { dstPayloadLen := rpcMessage.payload.length,
          dstTensorLens := rpcMessage.tensors,
          heldMessage := rpcMessage }
        dataError rpcMessage

/-- Agent state right after `startImpl`: running, no outbound pipes, message-id
counter at zero, `workerNameToURL_` as fetched from the rendezvous store. -/
def initialAgentState (running : Bool) (urls : List (String × String)) :
    AgentState :=
  { rpcAgentRunning := running, nextMessageID := 0, connectedPipes := [],
    workerNameToURL := urls, futures := [], nextFutureId := 0, nextPipeId := 0 }

/-- A concrete request-kind message used by several concrete evaluations. -/
def sampleRequest : Message :=
  { type := .request, id := 0, payload := [], tensors := [] }

/-- A concrete response-kind message used by several concrete evaluations. -/
def sampleResponse : Message :=
  { type := .response, id := 0, payload := [], tensors := [] }

theorem lookupEntry_setEntry {β : Type} (k k' : Nat) (v : β) :
    ∀ l : List (Nat × β),
    lookupEntry k (setEntry k' v l) = if k = k' then some v else lookupEntry k l := by
  intro l
  induction l with
  | nil =>
    by_cases h : k = k' <;> simp [setEntry, lookupEntry, h]
  | cons hd rest ih =>
    obtain ⟨a, b⟩ := hd
    by_cases h1 : k' = a
    · subst h1
      by_cases h2 : k = k' <;> simp [setEntry, lookupEntry, h2]
    · by_cases h2 : k = a
      · subst h2
        have h3 : ¬k = k' := fun hh => h1 hh.symm
        simp [setEntry, lookupEntry, h1, h3]
      · simp [setEntry, lookupEntry, h1, h2, ih]

theorem lookupEntry_updateEntry {β : Type} (k k' : Nat) (f : β → β) :
    ∀ l : List (Nat × β),
    lookupEntry k (updateEntry k' f l) =
      if k = k' then (lookupEntry k l).map f else lookupEntry k l := by
  intro l
  induction l with
  | nil =>
    by_cases h : k = k' <;> simp [updateEntry, lookupEntry, h]
  | cons hd rest ih =>
    obtain ⟨a, b⟩ := hd
    by_cases h1 : k' = a
    · subst h1
      by_cases h2 : k = k' <;> simp [updateEntry, lookupEntry, h2]
    · by_cases h2 : k = a
      · subst h2
        have h3 : ¬k = k' := fun hh => h1 hh.symm
        simp [updateEntry, lookupEntry, h1, h3]
      · simp [updateEntry, lookupEntry, h1, h2, ih]

theorem not_mem_of_lookupEntry_none {β : Type} (k : Nat) :
    ∀ l : List (Nat × β), lookupEntry k l = none → k ∉ l.map Prod.fst := by
  intro l
  induction l with
  | nil => intro _ hk; simp at hk
  | cons hd rest ih =>
    obtain ⟨a, b⟩ := hd
    intro h hk
    by_cases h1 : k = a
    · simp [lookupEntry, h1] at h
    · simp [lookupEntry, h1] at h
      rcases List.mem_cons.mp hk with h2 | h2
      · exact h1 h2
      · exact ih h h2

theorem setEntry_append_of_lookupEntry_none {β : Type} (k : Nat) (v : β) :
    ∀ l : List (Nat × β), lookupEntry k l = none →
    setEntry k v l = l ++ [(k, v)] := by
  intro l
  induction l with
  | nil => intro _; rfl
  | cons hd rest ih =>
    obtain ⟨a, b⟩ := hd
    intro h
    by_cases h1 : k = a
    · simp [lookupEntry, h1] at h
    · simp [lookupEntry, h1] at h
      simp [setEntry, h1, ih h]

theorem map_fst_setEntry_of_not_mem {β : Type} (k : Nat) (v : β) :
    ∀ l : List (Nat × β), k ∉ l.map Prod.fst →
    (setEntry k v l).map Prod.fst = l.map Prod.fst ++ [k] := by
  intro l
  induction l with
  | nil => intro _; rfl
  | cons hd rest ih =>
    obtain ⟨a, b⟩ := hd
    intro h
    simp only [List.map_cons, List.mem_cons] at h
    push_neg at h
    simp [setEntry, h.1, ih h.2]

theorem map_fst_eraseEntry_sublist {β : Type} (k : Nat) :
    ∀ l : List (Nat × β),
    ((eraseEntry k l).map Prod.fst).Sublist (l.map Prod.fst) := by
  intro l
  induction l with
  | nil => simp [eraseEntry]
  | cons hd rest ih =>
    obtain ⟨a, b⟩ := hd
    by_cases h1 : k = a
    · simp only [eraseEntry, if_pos h1, List.map_cons]
      exact (List.sublist_cons_self a (rest.map Prod.fst)).trans
        (List.Sublist.refl _) |>.trans (List.Sublist.refl _)
    · simp only [eraseEntry, if_neg h1, List.map_cons]
      exact ih.cons₂ a

/-- All message ids currently pending across every `ClientPipe` of a registry. -/
def flatKeys : List (Nat × ClientPipe) → List Nat
  | [] => []
  | wp :: rest => wp.2.pendingResponseMessage.map Prod.fst ++ flatKeys rest

theorem flatKeys_append :
    ∀ l1 l2 : List (Nat × ClientPipe),
    flatKeys (l1 ++ l2) = flatKeys l1 ++ flatKeys l2 := by
  intro l1 l2
  induction l1 with
  | nil => rfl
  | cons hd rest ih => simp [flatKeys, ih]

theorem flatKeys_decomp (w : Nat) (p p' : ClientPipe) :
    ∀ cp : List (Nat × ClientPipe), lookupEntry w cp = some p →
    ∃ pre post,
      flatKeys cp = pre ++ (p.pendingResponseMessage.map Prod.fst ++ post) ∧
      flatKeys (setEntry w p' cp) =
        pre ++ (p'.pendingResponseMessage.map Prod.fst ++ post) := by
  intro cp
  induction cp with
  | nil => intro h; simp [lookupEntry] at h
  | cons hd rest ih =>
    obtain ⟨a, q⟩ := hd
    intro h
    by_cases h1 : w = a
    · simp only [lookupEntry, if_pos h1] at h
      injection h with h2
      subst h2
      refine ⟨[], flatKeys rest, ?_, ?_⟩
      · simp [flatKeys]
      · subst h1
        simp [setEntry, flatKeys]
    · simp only [lookupEntry, if_neg h1] at h
      obtain ⟨pre, post, e1, e2⟩ := ih h
      refine ⟨q.pendingResponseMessage.map Prod.fst ++ pre, post, ?_, ?_⟩
      · simp [flatKeys, e1]
      · have h2 : ¬w = a := h1
        simp [setEntry, h2, flatKeys, e2]

theorem flush_keeps_error (e : String) (fid : Nat) :
    ∀ (table : List (Nat × Nat)) (fs : List (Nat × FutureState)),
    lookupEntry fid fs = some (FutureState.completedError e) →
    lookupEntry fid
        (table.foldl (fun acc q => updateEntry q.2 (FutureState.setError e) acc) fs) =
      some (FutureState.completedError e) := by
  intro table
  induction table with
  | nil => intro fs h; exact h
  | cons hd rest ih =>
    intro fs h
    simp only [List.foldl_cons]
    apply ih
    rw [lookupEntry_updateEntry]
    by_cases hk : fid = hd.2
    · simp [hk.symm ▸ h, h, FutureState.setError]
    · simp [hk, h]

theorem flush_sets_error (e : String) :
    ∀ (table : List (Nat × Nat)) (fs : List (Nat × FutureState)) (en : Nat × Nat),
    en ∈ table →
    (lookupEntry en.2 fs = some FutureState.pending ∨
      lookupEntry en.2 fs = some (FutureState.completedError e)) →
    lookupEntry en.2
        (table.foldl (fun acc q => updateEntry q.2 (FutureState.setError e) acc) fs) =
      some (FutureState.completedError e) := by
  intro table
  induction table with
  | nil => intro fs en hen; simp at hen
  | cons hd rest ih =>
    intro fs en hen hfs
    simp only [List.foldl_cons]
    rcases List.mem_cons.mp hen with h1 | h1
    · subst h1
      apply flush_keeps_error
      rw [lookupEntry_updateEntry]
      rcases hfs with h2 | h2 <;> simp [h2, FutureState.setError]
    · apply ih _ _ h1
      rw [lookupEntry_updateEntry]
      by_cases hk : en.2 = hd.2
      · rw [if_pos hk]
        rcases hfs with h2 | h2 <;> (right; rw [h2]; rfl)
      · rw [if_neg hk]
        exact hfs

theorem send_ok_spec (st : AgentState) (w : Nat) (name : String) (msg : Message)
    (out : SendOk) (h : TensorPipeAgent.send st w name msg = Except.ok out) :
    out.futureId = st.nextFutureId ∧
    out.messageId = st.nextMessageID ∧
    out.state.nextMessageID = (st.nextMessageID + 1) % uint64Mod ∧
    out.state.futures = setEntry st.nextFutureId FutureState.pending st.futures ∧
    ∃ clientPipe : ClientPipe,
      ((lookupEntry w st.connectedPipes = some clientPipe ∧
          out.freshConnection = false ∧
          out.state.nextPipeId = st.nextPipeId) ∨
        (lookupEntry w st.connectedPipes = none ∧
          out.freshConnection = true ∧
          clientPipe =
            { pipeId := st.nextPipeId, pendingResponseMessage := [],
              readError := false } ∧
          out.state.nextPipeId = st.nextPipeId + 1)) ∧
      out.pipeId = clientPipe.pipeId ∧
      out.state.connectedPipes = setEntry w
        { clientPipe with
          pendingResponseMessage := setEntry st.nextMessageID st.nextFutureId
            clientPipe.pendingResponseMessage }
        st.connectedPipes := by
  unfold TensorPipeAgent.send at h
  split at h
  · exact absurd h (by simp)
  · split at h
    · exact absurd h (by simp)
    · split at h
      · exact absurd h (by simp)
      · split at h
        · next clientPipe heq =>
          injection h with h2
          subst h2
          refine ⟨rfl, rfl, rfl, rfl, clientPipe, Or.inl ⟨heq, rfl, rfl⟩, rfl, rfl⟩
        · next heq =>
          injection h with h2
          subst h2
          exact ⟨rfl, rfl, rfl, rfl, _, Or.inr ⟨heq, rfl, rfl, rfl⟩, rfl, rfl⟩

theorem nodup_insert_middle (a : Nat) (l1 l2 l3 : List Nat)
    (h : (l1 ++ (l2 ++ l3)).Nodup) (ha : a ∉ l1 ++ (l2 ++ l3)) :
    (l1 ++ ((l2 ++ [a]) ++ l3)).Nodup := by
  have he : l1 ++ ((l2 ++ [a]) ++ l3) = (l1 ++ l2) ++ (a :: l3) := by
    simp [List.append_assoc]
  rw [he]
  have hp : ((l1 ++ l2) ++ (a :: l3)).Perm (a :: ((l1 ++ l2) ++ l3)) :=
    List.perm_middle
  apply (List.Perm.nodup_iff hp).mpr
  apply List.nodup_cons.mpr
  constructor
  · intro hmem
    apply ha
    simpa [List.append_assoc] using hmem
  · simpa [List.append_assoc] using h

theorem nodup_shrink_middle (l1 l2 l2' l3 : List Nat) (hsub : l2'.Sublist l2)
    (h : (l1 ++ (l2 ++ l3)).Nodup) : (l1 ++ (l2' ++ l3)).Nodup := by
  have hs : (l1 ++ (l2' ++ l3)).Sublist (l1 ++ (l2 ++ l3)) :=
    (List.Sublist.refl l1).append (hsub.append (List.Sublist.refl l3))
  exact List.Nodup.sublist hs h

/-- One asynchronous transition of the client side of the agent: a `send`, a
write-completion callback, a read-error or read-success callback, or the
shutdown signal clearing `rpcAgentRunning_`.  The first index counts the
message ids the step allocates from the counter: one for a `send`, zero
otherwise. -/
inductive AgentStep (st : AgentState) : Nat → AgentState → Prop
  | send (w : Nat) (name : String) (msg : Message) (out : SendOk)
      (h : TensorPipeAgent.send st w name msg = Except.ok out) :
      AgentStep st 1 out.state
  | writeDone (fid : Nat) (res : Option String) :
      AgentStep st 0 (onClientWriteDone st fid res).1
  | readError (w : Nat) (e : String) :
      AgentStep st 0 (onClientReadError st w e)
  | readSuccess (w : Nat) (resp : Message) (st' : AgentState)
      (h : onClientReadSuccess st w resp = some st') :
      AgentStep st 0 st'
  | stop :
      AgentStep st 0 { st with rpcAgentRunning := false }

/-- Zero or more agent transitions; the middle index accumulates the number
of message ids allocated along the way. -/
inductive AgentSteps (st : AgentState) : Nat → AgentState → Prop
  | refl : AgentSteps st 0 st
  | tail {n m : Nat} {st' st'' : AgentState} (h1 : AgentSteps st n st')
      (h2 : AgentStep st' m st'') : AgentSteps st (n + m) st''

/-- States reachable from the just-started agent with URL table `urls`, with
the number of sends (= allocated message ids) performed so far. -/
inductive AgentReachable (urls : List (String × String)) :
    Nat → AgentState → Prop
  | init : AgentReachable urls 0 (initialAgentState true urls)
  | step {n m : Nat} {st st' : AgentState} (h1 : AgentReachable urls n st)
      (h2 : AgentStep st m st') : AgentReachable urls (n + m) st'

/-- The pending-table invariant: the multiset of message ids pending across all
`ClientPipe`s has no duplicate — so a given message id sits in at most one
pending table, at most once — and every pending id is below the counter
`nextMessageID_`. -/
def AgentInvariant (st : AgentState) : Prop :=
  (flatKeys st.connectedPipes).Nodup ∧
  ∀ mid ∈ flatKeys st.connectedPipes, mid < st.nextMessageID

theorem completeResponse_connectedPipes (st : AgentState) (fid : Nat)
    (m : Message) : (completeResponse st fid m).connectedPipes = st.connectedPipes := by
  unfold completeResponse
  split <;> rfl

theorem completeResponse_nextMessageID (st : AgentState) (fid : Nat)
    (m : Message) : (completeResponse st fid m).nextMessageID = st.nextMessageID := by
  unfold completeResponse
  split <;> rfl

theorem send_preserves_invariant (st : AgentState) (w : Nat) (name : String)
    (msg : Message) (out : SendOk)
    (h : TensorPipeAgent.send st w name msg = Except.ok out)
    (hwrap : st.nextMessageID + 1 < uint64Mod)
    (inv : AgentInvariant st) : AgentInvariant out.state := by
  obtain ⟨hnodup, hbound⟩ := inv
  obtain ⟨_, _, hnm0, _, clientPipe, hcase, _, hcp⟩ := send_ok_spec st w name msg out h
  have hnm : out.state.nextMessageID = st.nextMessageID + 1 := by
    rw [hnm0]
    exact Nat.mod_eq_of_lt hwrap
  have hmidfresh : st.nextMessageID ∉ flatKeys st.connectedPipes := by
    intro hmem
    exact absurd (hbound _ hmem) (lt_irrefl _)
  rcases hcase with ⟨hlk, _, _⟩ | ⟨hlk, _, hpipe, _⟩
  · obtain ⟨pre, post, e1, e2⟩ := flatKeys_decomp w clientPipe
      { clientPipe with
        pendingResponseMessage := setEntry st.nextMessageID st.nextFutureId
          clientPipe.pendingResponseMessage }
      st.connectedPipes hlk
    have hmidnotin :
        st.nextMessageID ∉ clientPipe.pendingResponseMessage.map Prod.fst := by
      intro hmem
      apply hmidfresh
      rw [e1]
      exact List.mem_append.mpr (Or.inr (List.mem_append.mpr (Or.inl hmem)))
    have hkeys :
        (setEntry st.nextMessageID st.nextFutureId
            clientPipe.pendingResponseMessage).map Prod.fst =
          clientPipe.pendingResponseMessage.map Prod.fst ++ [st.nextMessageID] :=
      map_fst_setEntry_of_not_mem _ _ _ hmidnotin
    have e2' : flatKeys out.state.connectedPipes =
        pre ++ ((clientPipe.pendingResponseMessage.map Prod.fst ++
          [st.nextMessageID]) ++ post) := by
      rw [hcp]
      simpa [hkeys] using e2
    constructor
    · rw [e2']
      apply nodup_insert_middle
      · rw [← e1]; exact hnodup
      · rw [← e1]; exact hmidfresh
    · intro mid hmid
      rw [hnm]
      rw [e2'] at hmid
      simp only [List.mem_append, List.mem_singleton] at hmid
      rcases hmid with h1 | h1
      · exact Nat.lt_succ_of_lt (hbound _ (by rw [e1]; simp [h1]))
      · rcases h1 with h1 | h1
        · rcases h1 with h1 | h1
          · exact Nat.lt_succ_of_lt (hbound _ (by rw [e1]; simp [h1]))
          · rw [h1]; exact Nat.lt_succ_self _
        · exact Nat.lt_succ_of_lt (hbound _ (by rw [e1]; simp [h1]))
  · have happ : setEntry w
        { clientPipe with
          pendingResponseMessage := setEntry st.nextMessageID st.nextFutureId
            clientPipe.pendingResponseMessage }
        st.connectedPipes =
        st.connectedPipes ++
          [(w, { clientPipe with
            pendingResponseMessage := setEntry st.nextMessageID st.nextFutureId
              clientPipe.pendingResponseMessage })] :=
      setEntry_append_of_lookupEntry_none _ _ _ hlk
    have e2' : flatKeys out.state.connectedPipes =
        flatKeys st.connectedPipes ++ [st.nextMessageID] := by
      rw [hcp, happ, flatKeys_append]
      subst hpipe
      simp [flatKeys, setEntry]
    constructor
    · rw [e2']
      have := nodup_insert_middle st.nextMessageID (flatKeys st.connectedPipes)
        [] [] (by simpa using hnodup) (by simpa using hmidfresh)
      simpa using this
    · intro mid hmid
      rw [hnm]
      rw [e2'] at hmid
      simp only [List.mem_append, List.mem_singleton] at hmid
      rcases hmid with h1 | h1
      · exact Nat.lt_succ_of_lt (hbound _ h1)
      · rw [h1]; exact Nat.lt_succ_self _

theorem step_preserves_invariant {m : Nat} {st st' : AgentState}
    (h : AgentStep st m st') :
    st.nextMessageID + m < uint64Mod → AgentInvariant st → AgentInvariant st' := by
  cases h with
  | send w name msg out hsend =>
    intro hwrap inv
    exact send_preserves_invariant st w name msg out hsend hwrap inv
  | writeDone fid res =>
    intro _ inv
    cases res with
    | some e => exact inv
    | none => exact inv
  | readError w e =>
    intro _ inv
    unfold onClientReadError
    rcases hlk : lookupEntry w st.connectedPipes with _ | p
    · simpa [hlk] using inv
    · obtain ⟨pre, post, e1, e2⟩ := flatKeys_decomp w p
        { p with pendingResponseMessage := [], readError := true }
        st.connectedPipes hlk
      simp only [hlk]
      constructor
      · have e2' : flatKeys (setEntry w
            { p with pendingResponseMessage := [], readError := true }
            st.connectedPipes) = pre ++ ([] ++ post) := by simpa using e2
        rw [e2']
        apply nodup_shrink_middle _ _ _ _ (List.nil_sublist _)
        rw [← e1]; exact inv.1
      · intro mid hmid
        apply inv.2
        have e2' : flatKeys (setEntry w
            { p with pendingResponseMessage := [], readError := true }
            st.connectedPipes) = pre ++ ([] ++ post) := by simpa using e2
        rw [e2'] at hmid
        rw [e1]
        simp only [List.mem_append] at hmid ⊢
        tauto
  | readSuccess w resp st2 hrs =>
    intro _ inv
    unfold onClientReadSuccess at hrs
    split at hrs
    · exact absurd hrs (by simp)
    · next pipe hlk =>
      split at hrs
      · exact absurd hrs (by simp)
      · split at hrs
        · exact absurd hrs (by simp)
        · next fid hlm =>
          injection hrs with hrs
          subst hrs
          obtain ⟨pre, post, e1, e2⟩ := flatKeys_decomp w pipe
            { pipe with
              pendingResponseMessage :=
                eraseEntry resp.id pipe.pendingResponseMessage }
            st.connectedPipes hlk
          have e2' :
              flatKeys (setEntry w
                { pipe with
                  pendingResponseMessage :=
                    eraseEntry resp.id pipe.pendingResponseMessage }
                st.connectedPipes) =
              pre ++ ((eraseEntry resp.id
                pipe.pendingResponseMessage).map Prod.fst ++ post) := by
            simpa using e2
          constructor
          · rw [completeResponse_connectedPipes]
            show (flatKeys (setEntry w _ st.connectedPipes)).Nodup
            rw [e2']
            apply nodup_shrink_middle _ _ _ _ (map_fst_eraseEntry_sublist _ _)
            rw [← e1]; exact inv.1
          · intro mid hmid
            rw [completeResponse_connectedPipes] at hmid
            rw [completeResponse_nextMessageID]
            apply inv.2
            rw [e2'] at hmid
            rw [e1]
            simp only [List.mem_append] at hmid ⊢
            rcases hmid with h1 | h1
            · tauto
            · rcases h1 with h1 | h1
              · exact Or.inr (Or.inl ((map_fst_eraseEntry_sublist _ _).subset h1))
              · tauto
  | stop => intro _ inv; exact inv

theorem uint64Mod_pos : 0 < uint64Mod := by decide

theorem step_counter {m : Nat} {st st' : AgentState} (h : AgentStep st m st')
    (hc : st.nextMessageID < uint64Mod) :
    st'.nextMessageID = (st.nextMessageID + m) % uint64Mod := by
  cases h with
  | send w name msg out hsend =>
    obtain ⟨_, _, hnm, _⟩ := send_ok_spec st w name msg out hsend
    exact hnm
  | writeDone fid res =>
    cases res with
    | some e => exact (Nat.mod_eq_of_lt hc).symm
    | none => exact (Nat.mod_eq_of_lt hc).symm
  | readError w e =>
    rcases hlk : lookupEntry w st.connectedPipes with _ | p <;>
      simp [onClientReadError, hlk, Nat.mod_eq_of_lt hc]
  | readSuccess w resp st2 hrs =>
    unfold onClientReadSuccess at hrs
    split at hrs
    · exact absurd hrs (by simp)
    · next pipe hlk =>
      split at hrs
      · exact absurd hrs (by simp)
      · split at hrs
        · exact absurd hrs (by simp)
        · next fid hlm =>
          injection hrs with hrs
          subst hrs
          rw [completeResponse_nextMessageID]
          exact (Nat.mod_eq_of_lt hc).symm
  | stop => exact (Nat.mod_eq_of_lt hc).symm

theorem steps_counter {k : Nat} {st st' : AgentState} (h : AgentSteps st k st')
    (hc : st.nextMessageID < uint64Mod) :
    st'.nextMessageID = (st.nextMessageID + k) % uint64Mod := by
  induction h with
  | refl => exact (Nat.mod_eq_of_lt hc).symm
  | tail h1 h2 ih =>
    rw [step_counter h2 (by rw [ih]; exact Nat.mod_lt _ uint64Mod_pos), ih,
      Nat.mod_add_mod, Nat.add_assoc]

theorem reachable_counter_invariant (urls : List (String × String)) (n : Nat)
    (st : AgentState) (h : AgentReachable urls n st) :
    n < uint64Mod → AgentInvariant st ∧ st.nextMessageID = n := by
  induction h with
  | init =>
    intro _
    exact ⟨⟨List.nodup_nil,
      by intro mid hmid; simp [initialAgentState, flatKeys] at hmid⟩, rfl⟩
  | step h1 h2 ih =>
    intro hn
    have hn0 : _ < uint64Mod := Nat.lt_of_le_of_lt (Nat.le_add_right _ _) hn
    obtain ⟨inv0, hc0⟩ := ih hn0
    refine ⟨step_preserves_invariant h2 (by rw [hc0]; exact hn) inv0, ?_⟩
    rw [step_counter h2 (by rw [hc0]; exact hn0), hc0, Nat.mod_eq_of_lt hn]

/-- C5, amended: the message-id counter `nextMessageID_` is a wrapping 64-bit
(`uint64_t`) register.  As long as the agent has performed fewer than `2^64`
sends, a given message id is present in at most one `ClientPipe`'s pending
table (the concatenation of all pending tables' key sets has no duplicate),
and the ids assigned to two sends whose in-flight windows overlap are
distinct provided fewer than `2^64` ids are allocated between them — after a
full `2^64`-allocation wrap of the counter the id value recurs. -/
theorem message_ids_distinct_unless_counter_wraps
    (urls : List (String × String)) (n : Nat) (st : AgentState)
    (h : AgentReachable urls n st) (hn : n < uint64Mod) :
    AgentInvariant st ∧
    ∀ (w : Nat) (name : String) (msg : Message) (out : SendOk) (k : Nat)
      (st2 : AgentState) (w2 : Nat) (name2 : String) (msg2 : Message)
      (out2 : SendOk),
      TensorPipeAgent.send st w name msg = Except.ok out →
      AgentSteps out.state k st2 →
      TensorPipeAgent.send st2 w2 name2 msg2 = Except.ok out2 →
      k + 1 < uint64Mod →
      out.messageId ≠ out2.messageId := by
  obtain ⟨inv, hc⟩ := reachable_counter_invariant urls n st h hn
  refine ⟨inv, ?_⟩
  intro w name msg out k st2 w2 name2 msg2 out2 h1 hsteps h2 hk
  obtain ⟨_, hm1, hn1, _⟩ := send_ok_spec _ _ _ _ _ h1
  obtain ⟨_, hm2, _, _⟩ := send_ok_spec _ _ _ _ _ h2
  have hlt1 : out.state.nextMessageID < uint64Mod := by
    rw [hn1]
    exact Nat.mod_lt _ uint64Mod_pos
  have h2c := steps_counter hsteps hlt1
  rw [hn1, Nat.mod_add_mod] at h2c
  rw [hm1, hm2, h2c, hc]
  simp only [uint64Mod] at hk hn ⊢
  omega

/-- C1: when a connection's read completes with an error, every response handle
still pending in that connection's table at the moment of failure is completed
with that transport error, the connection's `readError_` flag is set, and the
pending table is empty afterwards. -/
theorem read_error_flushes_pending (st : AgentState) (w : Nat) (p : ClientPipe)
    (e : String) (hp : lookupEntry w st.connectedPipes = some p) :
    lookupEntry w (onClientReadError st w e).connectedPipes =
      some { p with pendingResponseMessage := [], readError := true } ∧
    ∀ en ∈ p.pendingResponseMessage,
      lookupEntry en.2 st.futures = some FutureState.pending →
      lookupEntry en.2 (onClientReadError st w e).futures =
        some (FutureState.completedError e) := by
  unfold onClientReadError
  simp only [hp]
  constructor
  · rw [lookupEntry_setEntry, if_pos rfl]
  · intro en hen hfs
    exact flush_sets_error e _ _ _ hen (Or.inl hfs)

/-- C6: a `send` whose message is not request-kind, or issued while the agent
is not running, fails synchronously (the stopped case with the "no longer
running" condition), producing no successor state — so no connection lookup,
no pending-table mutation and no network I/O happen. -/
theorem send_precondition_failures_synchronous (st : AgentState) (w : Nat)
    (name : String) (msg : Message) :
    (msg.type.isRequest = false →
      TensorPipeAgent.send st w name msg =
        Except.error SendError.onlyForRequests) ∧
    (msg.type.isRequest = true → st.rpcAgentRunning = false →
      TensorPipeAgent.send st w name msg = Except.error SendError.notRunning) := by
  constructor
  · intro h
    simp [TensorPipeAgent.send, h]
  · intro h1 h2
    simp [TensorPipeAgent.send, h1, h2]

/-- C3: every response written back by the server loop — a successful response
or a synthesized exception response — carries exactly the message id of the
original request it answers. -/
theorem response_echoes_request_message_id (running : Bool)
    (fut : FutureState) (messageId : Nat) (written : Message)
    (h : TensorPipeAgent.sendCompletedResponseMessage running fut messageId =
      some written) :
    written.id = messageId := by
  cases running with
  | false => simp [TensorPipeAgent.sendCompletedResponseMessage] at h
  | true =>
    cases fut with
    | pending => simp [TensorPipeAgent.sendCompletedResponseMessage] at h
    | completedOk m =>
      simp only [TensorPipeAgent.sendCompletedResponseMessage,
        Bool.not_true, Bool.false_eq_true, if_false, Option.some.injEq] at h
      rw [← h]
    | completedError e =>
      simp only [TensorPipeAgent.sendCompletedResponseMessage,
        Bool.not_true, Bool.false_eq_true, if_false, Option.some.injEq] at h
      rw [← h]
      rfl

/-- C7: when the asynchronous request write of a `send` fails, the handle
returned by that send is completed with the error in the write-completion
callback itself, and no response read is armed for that write. -/
theorem write_error_completes_handle_without_read (st : AgentState) (w : Nat)
    (name : String) (msg : Message) (out : SendOk) (e : String)
    (h : TensorPipeAgent.send st w name msg = Except.ok out) :
    lookupEntry out.futureId
        (onClientWriteDone out.state out.futureId (some e)).1.futures =
      some (FutureState.completedError e) ∧
    (onClientWriteDone out.state out.futureId (some e)).2 = false := by
  obtain ⟨hf, _, _, hfu, _⟩ := send_ok_spec st w name msg out h
  constructor
  · show lookupEntry out.futureId
      (updateEntry out.futureId (FutureState.setError e) out.state.futures) = _
    rw [lookupEntry_updateEntry, if_pos rfl, hfu, hf,
      lookupEntry_setEntry, if_pos rfl]
    rfl
  · rfl

/-- C10: the write-error path completes the pending handle with the error but
does not remove its entry from the connection's pending table: after the
write-error callback runs, the table still maps the request's message id to
the (now errored) handle. -/
theorem write_error_leaves_pending_entry (st : AgentState) (w : Nat)
    (name : String) (msg : Message) (out : SendOk) (e : String)
    (h : TensorPipeAgent.send st w name msg = Except.ok out) :
    lookupEntry out.futureId
        (onClientWriteDone out.state out.futureId (some e)).1.futures =
      some (FutureState.completedError e) ∧
    ((lookupEntry w
        (onClientWriteDone out.state out.futureId (some e)).1.connectedPipes).map
      (fun p => lookupEntry out.messageId p.pendingResponseMessage)) =
      some (some out.futureId) := by
  obtain ⟨hf, hm, _, hfu, clientPipe, _, _, hcp⟩ := send_ok_spec st w name msg out h
  constructor
  · show lookupEntry out.futureId
      (updateEntry out.futureId (FutureState.setError e) out.state.futures) = _
    rw [lookupEntry_updateEntry, if_pos rfl, hfu, hf,
      lookupEntry_setEntry, if_pos rfl]
    rfl
  · show ((lookupEntry w out.state.connectedPipes).map
      (fun p => lookupEntry out.messageId p.pendingResponseMessage)) = _
    rw [hcp, lookupEntry_setEntry, if_pos rfl]
    show some (lookupEntry out.messageId
      (setEntry st.nextMessageID st.nextFutureId
        clientPipe.pendingResponseMessage)) = _
    rw [hm, lookupEntry_setEntry, if_pos rfl, hf]

/-- C4: a response delivered to the client receive loop completes the matching
handle with an error when the response is exception-kind — the error text
being the payload bytes decoded as text — and with the response as a success
otherwise. -/
theorem receive_loop_exception_vs_success (st : AgentState) (w : Nat)
    (p : ClientPipe) (resp : Message) (fid : Nat)
    (hp : lookupEntry w st.connectedPipes = some p)
    (he : p.readError = false)
    (hm : lookupEntry resp.id p.pendingResponseMessage = some fid)
    (hf : lookupEntry fid st.futures = some FutureState.pending) :
    (onClientReadSuccess st w resp).map (fun s => lookupEntry fid s.futures) =
      some (some (if resp.type = .exception then
        FutureState.completedError (String.mk resp.payload)
      else
        FutureState.completedOk resp)) := by
  unfold onClientReadSuccess
  simp only [hp, he, hm, Bool.false_eq_true, if_false, Option.map_some']
  by_cases ht : resp.type = .exception
  · rw [if_pos ht]
    unfold completeResponse
    rw [if_pos ht]
    show some (lookupEntry fid
      (updateEntry fid (FutureState.setError (String.mk resp.payload))
        st.futures)) = _
    rw [lookupEntry_updateEntry, if_pos rfl, hf]
    rfl
  · rw [if_neg ht]
    unfold completeResponse
    rw [if_neg ht]
    show some (lookupEntry fid
      (updateEntry fid (FutureState.markCompleted resp) st.futures)) = _
    rw [lookupEntry_updateEntry, if_pos rfl, hf]
    rfl

/-- C2, amended: after the connection to a worker has failed (read errored,
handles flushed), a subsequent `send` to that worker reuses the existing
broken `ClientPipe` — `connectedPipes_` still holds it, no fresh connection is
opened, and the new request's handle is registered in the broken pipe's
pending table. -/
theorem send_after_read_error_reuses_pipe (st : AgentState) (w : Nat)
    (name : String) (msg : Message) (p : ClientPipe) (out : SendOk)
    (hp : lookupEntry w st.connectedPipes = some p)
    (hb : p.readError = true)
    (h : TensorPipeAgent.send st w name msg = Except.ok out) :
    out.freshConnection = false ∧
    out.pipeId = p.pipeId ∧
    out.state.nextPipeId = st.nextPipeId ∧
    lookupEntry w out.state.connectedPipes =
      some { p with
        pendingResponseMessage :=
          setEntry st.nextMessageID st.nextFutureId p.pendingResponseMessage } := by
  obtain ⟨_, _, _, _, clientPipe, hcase, hpid, hcp⟩ := send_ok_spec st w name msg out h
  rcases hcase with ⟨hlk, hfr, hnp⟩ | ⟨hlk, _, _, _⟩
  · rw [hp] at hlk
    injection hlk with hlk
    subst hlk
    refine ⟨hfr, hpid, hnp, ?_⟩
    rw [hcp, lookupEntry_setEntry, if_pos rfl]
  · rw [hp] at hlk
    exact absurd hlk (by simp)

theorem runAcceptLoop_unarmed (st : ListenerState)
    (hs : st.acceptArmed = false) :
    ∀ evs : List (Except String Nat), runAcceptLoop st evs = st := by
  intro evs
  cases evs with
  | nil => rfl
  | cons ev rest => simp [runAcceptLoop, hs]

/-- C8: the accept loop re-arms a new accept exactly when the previous accept
completed successfully; after an accept error the handler returns without
re-arming, so the events after the error contribute no further accepted
connection. -/
theorem accept_rearm_iff_success :
    (∀ (st : ListenerState) (ev : Except String Nat),
      (TensorPipeAgent.onListenerAccepted st ev).acceptArmed = ev.isOk) ∧
    (∀ (oks : List (Except String Nat)) (e : String)
        (rest : List (Except String Nat)) (st : ListenerState),
      st.acceptArmed = true →
      (∀ x ∈ oks, x.isOk = true) →
      runAcceptLoop st (oks ++ Except.error e :: rest) =
        { acceptArmed := false,
          acceptedPipes := (runAcceptLoop st oks).acceptedPipes }) := by
  constructor
  · intro st ev
    cases ev <;> simp [TensorPipeAgent.onListenerAccepted, Except.isOk, Except.toBool]
  · intro oks
    induction oks with
    | nil =>
      intro e rest st hs _
      simp only [List.nil_append, runAcceptLoop, hs, if_true]
      rw [runAcceptLoop_unarmed _ rfl rest]
      rfl
    | cons hd tl ih =>
      intro e rest st hs hoks
      have hhd := hoks hd (List.mem_cons_self hd tl)
      obtain ⟨q, hq⟩ : ∃ q, hd = Except.ok q := by
        cases hd with
        | ok q => exact ⟨q, rfl⟩
        | error s => simp [Except.isOk, Except.toBool] at hhd
      subst hq
      simp only [List.cons_append, runAcceptLoop, hs, if_true]
      exact ih e rest _ rfl (fun x hx => hoks x (List.mem_cons_of_mem _ hx))

/-- C9: on receiving a descriptor, the read path allocates a destination
`Message` whose tensor-buffer count equals the count reported by the
descriptor — a mismatch is the fatal assertion "Tensor num mismatch", not a
recoverable error — fills in the destination sizes for the main payload and
each tensor, and only then issues the data-transfer read, whose completion
callback receives exactly the allocated (kept-alive) message. -/
theorem pipe_read_allocation_matches (d : TPDescriptor) (r : Option String) :
    (TensorPipeAgent.pipeRead tensorpipeAllocateMessage
        (PipeReadEvent.descriptorArrived d r) =
      PipeReadOutcome.dataCallback
        { dstPayloadLen := d.payloadLen, dstTensorLens := d.tensorLens,
          heldMessage := tensorpipeAllocateMessage d }
        r (tensorpipeAllocateMessage d) ∧
      (tensorpipeAllocateMessage d).tensors.length = d.tensorLens.length) ∧
    ∀ alloc : TPDescriptor → Message,
      (alloc d).tensors.length ≠ d.tensorLens.length →
      TensorPipeAgent.pipeRead alloc (PipeReadEvent.descriptorArrived d r) =
        PipeReadOutcome.fatalAssert "Tensor num mismatch" := by
  constructor
  · constructor
    · simp [TensorPipeAgent.pipeRead, tensorpipeAllocateMessage]
    · rfl
  · intro alloc hne
    simp [TensorPipeAgent.pipeRead, hne]

/-- URL table of a two-worker setting: worker 1 is named "workerB". -/
def demoUrls : List (String × String) := [("workerB", "tcp://127.0.0.1:1234")]

/-- The just-started agent of the demo setting. -/
def demoInit : AgentState := initialAgentState true demoUrls

/-- Demo state after one send to worker 1: pipe 0 freshly opened, message id 0
pending. -/
def demoAfterOneSend : AgentState :=
  { rpcAgentRunning := true, nextMessageID := 1,
    connectedPipes :=
      [(1, { pipeId := 0, pendingResponseMessage := [(0, 0)], readError := false })],
    workerNameToURL := demoUrls,
    futures := [(0, FutureState.pending)],
    nextFutureId := 1, nextPipeId := 1 }

/-- The `SendOk` of the first demo send. -/
def demoOut1 : SendOk :=
  { state := demoAfterOneSend, futureId := 0, messageId := 0, pipeId := 0,
    freshConnection := true }

/-- Demo state after two sends to worker 1: message ids 0 and 1 both pending
on pipe 0 (end-to-end scenario 4 just before the connection is severed). -/
def demoPipeTwo : ClientPipe :=
  { pipeId := 0, pendingResponseMessage := [(0, 0), (1, 1)], readError := false }

def demoAfterTwoSends : AgentState :=
  { rpcAgentRunning := true, nextMessageID := 2,
    connectedPipes := [(1, demoPipeTwo)],
    workerNameToURL := demoUrls,
    futures := [(0, FutureState.pending), (1, FutureState.pending)],
    nextFutureId := 2, nextPipeId := 1 }

/-- The `SendOk` of the second demo send. -/
def demoOut2 : SendOk :=
  { state := demoAfterTwoSends, futureId := 1, messageId := 1, pipeId := 0,
    freshConnection := false }

/-- Demo state after a third send to worker 1. -/
def demoPipeThree : ClientPipe :=
  { pipeId := 0, pendingResponseMessage := [(0, 0), (1, 1), (2, 2)],
    readError := false }

def demoAfterThreeSends : AgentState :=
  { rpcAgentRunning := true, nextMessageID := 3,
    connectedPipes := [(1, demoPipeThree)],
    workerNameToURL := demoUrls,
    futures := [(0, FutureState.pending), (1, FutureState.pending),
      (2, FutureState.pending)],
    nextFutureId := 3, nextPipeId := 1 }

/-- The `SendOk` of the third demo send. -/
def demoOut3 : SendOk :=
  { state := demoAfterThreeSends, futureId := 2, messageId := 2, pipeId := 0,
    freshConnection := false }

/-- Demo state after a fourth send to worker 1. -/
def demoPipeFour : ClientPipe :=
  { pipeId := 0, pendingResponseMessage := [(0, 0), (1, 1), (2, 2), (3, 3)],
    readError := false }

def demoAfterFourSends : AgentState :=
  { rpcAgentRunning := true, nextMessageID := 4,
    connectedPipes := [(1, demoPipeFour)],
    workerNameToURL := demoUrls,
    futures := [(0, FutureState.pending), (1, FutureState.pending),
      (2, FutureState.pending), (3, FutureState.pending)],
    nextFutureId := 4, nextPipeId := 1 }

/-- The `SendOk` of the fourth demo send. -/
def demoOut4 : SendOk :=
  { state := demoAfterFourSends, futureId := 3, messageId := 3, pipeId := 0,
    freshConnection := false }

theorem demoAfterTwoSends_reachable :
    AgentReachable demoUrls 2 demoAfterTwoSends :=
  AgentReachable.step
    (AgentReachable.step
      (AgentReachable.init : AgentReachable demoUrls 0 demoInit)
      (AgentStep.send 1 "workerB" sampleRequest demoOut1 rfl :
        AgentStep demoInit 1 demoAfterOneSend))
    (AgentStep.send 1 "workerB" sampleRequest demoOut2 rfl :
      AgentStep demoAfterOneSend 1 demoAfterTwoSends)

/-- The registry state of end-to-end scenario 4 after the connection to worker
1 failed with two requests pending: both handles hold the transport error, the
pending table is empty, the pipe is marked `readError_`, and — decisively —
the broken `ClientPipe` entry is still present in `connectedPipes_`. -/
def brokenPipeState : AgentState :=
  { rpcAgentRunning := true, nextMessageID := 2,
    connectedPipes :=
      [(1, { pipeId := 0, pendingResponseMessage := [], readError := true })],
    workerNameToURL := demoUrls,
    futures := [(0, FutureState.completedError "econnreset"),
      (1, FutureState.completedError "econnreset")],
    nextFutureId := 2, nextPipeId := 1 }

/-- C2 counterexample: `brokenPipeState` is exactly the state produced by the
read-error flush of scenario 4, yet the next `send` finds and reuses the
broken pipe (pipe 0): `freshConnection` is false, the request goes out on pipe
0, and no new pipe is opened (`nextPipeId` stays 1) — the claim's "creates a
fresh connection rather than reusing the broken one" is false on the code. -/
theorem send_after_read_error_cex :
    onClientReadError demoAfterTwoSends 1 "econnreset" = brokenPipeState ∧
    lookupEntry 1 brokenPipeState.connectedPipes =
      some { pipeId := 0, pendingResponseMessage := [], readError := true } ∧
    (TensorPipeAgent.send brokenPipeState 1 "workerB" sampleRequest).toOption.map
        (fun o => (o.freshConnection, o.pipeId, o.state.nextPipeId)) =
      some (false, 0, 1) := by
  refine ⟨?_, rfl, rfl⟩
  rfl

/-- The `SendOk` of the send issued on the broken demo pipe. -/
def brokenOutPipe : ClientPipe :=
  { pipeId := 0, pendingResponseMessage := [(2, 2)], readError := true }

def brokenOutState : AgentState :=
  { rpcAgentRunning := true, nextMessageID := 3,
    connectedPipes := [(1, brokenOutPipe)],
    workerNameToURL := demoUrls,
    futures := [(0, FutureState.completedError "econnreset"),
      (1, FutureState.completedError "econnreset"),
      (2, FutureState.pending)],
    nextFutureId := 3, nextPipeId := 1 }

def brokenOut : SendOk :=
  { state := brokenOutState, futureId := 2, messageId := 2, pipeId := 0,
    freshConnection := false }

theorem send_after_read_error_reuses_pipe_witness :
    brokenOut.freshConnection = false ∧
    brokenOut.pipeId = 0 ∧
    brokenOut.state.nextPipeId = brokenPipeState.nextPipeId ∧
    lookupEntry 1 brokenOut.state.connectedPipes = some brokenOutPipe :=
  send_after_read_error_reuses_pipe brokenPipeState 1 "workerB" sampleRequest
    { pipeId := 0, pendingResponseMessage := [], readError := true } brokenOut
    rfl rfl rfl

theorem read_error_flushes_pending_witness :
    lookupEntry 1 (onClientReadError demoAfterTwoSends 1 "econnreset").connectedPipes =
      some { pipeId := 0, pendingResponseMessage := [], readError := true } ∧
    lookupEntry 0 (onClientReadError demoAfterTwoSends 1 "econnreset").futures =
      some (FutureState.completedError "econnreset") ∧
    lookupEntry 1 (onClientReadError demoAfterTwoSends 1 "econnreset").futures =
      some (FutureState.completedError "econnreset") :=
  ⟨(read_error_flushes_pending demoAfterTwoSends 1
      { pipeId := 0, pendingResponseMessage := [(0, 0), (1, 1)], readError := false }
      "econnreset" rfl).1,
   (read_error_flushes_pending demoAfterTwoSends 1
      { pipeId := 0, pendingResponseMessage := [(0, 0), (1, 1)], readError := false }
      "econnreset" rfl).2 (0, 0) (by decide) rfl,
   (read_error_flushes_pending demoAfterTwoSends 1
      { pipeId := 0, pendingResponseMessage := [(0, 0), (1, 1)], readError := false }
      "econnreset" rfl).2 (1, 1) (by decide) rfl⟩

theorem message_ids_distinct_unless_counter_wraps_witness :
    AgentInvariant demoAfterTwoSends ∧ demoOut3.messageId ≠ demoOut4.messageId :=
  ⟨(message_ids_distinct_unless_counter_wraps demoUrls 2 demoAfterTwoSends
      demoAfterTwoSends_reachable (by decide)).1,
   (message_ids_distinct_unless_counter_wraps demoUrls 2 demoAfterTwoSends
      demoAfterTwoSends_reachable (by decide)).2 1 "workerB" sampleRequest
      demoOut3 0 demoAfterThreeSends 1 "workerB" sampleRequest demoOut4 rfl
      AgentSteps.refl rfl (by decide)⟩

theorem response_echoes_request_message_id_witness :
    (Message.mk MessageType.response 7 [] []).id = 7 :=
  response_echoes_request_message_id true
    (FutureState.completedOk (Message.mk MessageType.response 3 [] [])) 7
    (Message.mk MessageType.response 7 [] []) rfl

/-- A concrete remote-exception response: payload "div". -/
def excResp : Message :=
  { type := .exception, id := 0, payload := ['d', 'i', 'v'], tensors := [] }

/-- A concrete successful response for message id 1. -/
def okResp : Message :=
  { type := .response, id := 1, payload := [], tensors := [] }

theorem receive_loop_exception_vs_success_witness :
    (onClientReadSuccess demoAfterTwoSends 1 excResp).map
        (fun s => lookupEntry 0 s.futures) =
      some (some (FutureState.completedError "div")) ∧
    (onClientReadSuccess demoAfterTwoSends 1 okResp).map
        (fun s => lookupEntry 1 s.futures) =
      some (some (FutureState.completedOk okResp)) :=
  ⟨receive_loop_exception_vs_success demoAfterTwoSends 1
      { pipeId := 0, pendingResponseMessage := [(0, 0), (1, 1)], readError := false }
      excResp 0 rfl rfl rfl rfl,
   receive_loop_exception_vs_success demoAfterTwoSends 1
      { pipeId := 0, pendingResponseMessage := [(0, 0), (1, 1)], readError := false }
      okResp 1 rfl rfl rfl rfl⟩

theorem send_precondition_failures_synchronous_witness :
    TensorPipeAgent.send (initialAgentState true []) 0 "w" sampleResponse =
      Except.error SendError.onlyForRequests ∧
    TensorPipeAgent.send (initialAgentState false []) 0 "w" sampleRequest =
      Except.error SendError.notRunning :=
  ⟨(send_precondition_failures_synchronous (initialAgentState true []) 0 "w"
      sampleResponse).1 rfl,
   (send_precondition_failures_synchronous (initialAgentState false []) 0 "w"
      sampleRequest).2 rfl rfl⟩

theorem write_error_completes_handle_without_read_witness :
    lookupEntry 0 (onClientWriteDone demoAfterOneSend 0 (some "ewrite")).1.futures =
      some (FutureState.completedError "ewrite") ∧
    (onClientWriteDone demoAfterOneSend 0 (some "ewrite")).2 = false :=
  write_error_completes_handle_without_read demoInit 1 "workerB" sampleRequest
    demoOut1 "ewrite" rfl

theorem write_error_leaves_pending_entry_witness :
    lookupEntry 0 (onClientWriteDone demoAfterOneSend 0 (some "ewrite")).1.futures =
      some (FutureState.completedError "ewrite") ∧
    ((lookupEntry 1
        (onClientWriteDone demoAfterOneSend 0 (some "ewrite")).1.connectedPipes).map
      (fun p => lookupEntry 0 p.pendingResponseMessage)) = some (some 0) :=
  write_error_leaves_pending_entry demoInit 1 "workerB" sampleRequest demoOut1
    "ewrite" rfl

theorem accept_rearm_iff_success_witness :
    runAcceptLoop { acceptArmed := true, acceptedPipes := [] }
        [Except.ok 5, Except.error "eaccept", Except.ok 7] =
      { acceptArmed := false, acceptedPipes := [5] } :=
  accept_rearm_iff_success.2 [Except.ok 5] "eaccept" [Except.ok 7]
    { acceptArmed := true, acceptedPipes := [] } rfl
    (fun x hx => by
      rw [List.mem_singleton] at hx
      rw [hx]
      rfl)

/-- An allocator violating the descriptor's shape, to exercise the fatal
assertion of `pipeRead`. -/
def badAlloc : TPDescriptor → Message := fun _ => Message.empty

theorem pipe_read_allocation_matches_witness :
    TensorPipeAgent.pipeRead badAlloc
        (PipeReadEvent.descriptorArrived { payloadLen := 2, tensorLens := [3] } none) =
      PipeReadOutcome.fatalAssert "Tensor num mismatch" ∧
    TensorPipeAgent.pipeRead tensorpipeAllocateMessage
        (PipeReadEvent.descriptorArrived { payloadLen := 2, tensorLens := [3] } none) =
      PipeReadOutcome.dataCallback
        { dstPayloadLen := 2, dstTensorLens := [3],
          heldMessage := tensorpipeAllocateMessage { payloadLen := 2, tensorLens := [3] } }
        none (tensorpipeAllocateMessage { payloadLen := 2, tensorLens := [3] }) :=
  ⟨(pipe_read_allocation_matches { payloadLen := 2, tensorLens := [3] } none).2
      badAlloc (by decide),
   (pipe_read_allocation_matches { payloadLen := 2, tensorLens := [3] } none).1.1⟩

/-- URL table of a three-worker setting used by the wrap-around scenario. -/
def wrapUrls : List (String × String) :=
  [("workerB", "tcp://127.0.0.1:1234"), ("workerC", "tcp://127.0.0.1:5678")]

/-- The agent state at the moment the 64-bit counter reaches its maximum
value, `2^64 - 1` (after `2^64 - 1` allocations). -/
def ctrMaxState : AgentState :=
  { rpcAgentRunning := true, nextMessageID := 18446744073709551615,
    connectedPipes := [], workerNameToURL := wrapUrls,
    futures := [], nextFutureId := 0, nextPipeId := 0 }

/-- The pipe to worker 1 holding the stale request: message id 0, allocated a
full counter cycle earlier, is still pending. -/
def staleWrapPipe : ClientPipe :=
  { pipeId := 0, pendingResponseMessage := [(0, 0)], readError := false }

/-- The agent state just after the counter has wrapped back to 0 while the
request with message id 0 on the pipe to worker 1 is still awaiting its
response. -/
def staleAfterWrapState : AgentState :=
  { rpcAgentRunning := true, nextMessageID := 0,
    connectedPipes := [(1, staleWrapPipe)],
    workerNameToURL := wrapUrls,
    futures := [(0, FutureState.pending)],
    nextFutureId := 1, nextPipeId := 1 }

/-- The pipe to worker 2 created by the post-wrap send: it also carries
message id 0 in its pending table. -/
def collidedPipe : ClientPipe :=
  { pipeId := 1, pendingResponseMessage := [(0, 1)], readError := false }

/-- The result of the post-wrap send to worker 2. -/
def wrapCollidedOut : SendOk :=
  { state :=
      { rpcAgentRunning := true, nextMessageID := 1,
        connectedPipes := [(1, staleWrapPipe), (2, collidedPipe)],
        workerNameToURL := wrapUrls,
        futures := [(0, FutureState.pending), (1, FutureState.pending)],
        nextFutureId := 2, nextPipeId := 2 },
    futureId := 1, messageId := 0, pipeId := 1, freshConnection := true }

/-- C5 counterexample: `nextMessageID_` is a wrapping `uint64_t`, so the
unconditional claim is false.  At `ctrMaxState` a send is assigned id
`2^64 - 1` and the counter wraps to 0, so id values recur after `2^64`
allocations — two sends separated by a full cycle receive the same id.  And
at `staleAfterWrapState` — the wrapped counter with the cycle-old id 0 still
pending on the pipe to worker 1 — the next send to worker 2 is assigned id 0
again and registers it in worker 2's pending table, so message id 0 is
present in two `ClientPipe`s' pending tables at once and the concatenated
key sets `[0, 0]` are not duplicate-free. -/
theorem message_ids_wraparound_cex :
    (TensorPipeAgent.send ctrMaxState 1 "workerB" sampleRequest).toOption.map
        (fun o => (o.messageId, o.state.nextMessageID)) =
      some (18446744073709551615, 0) ∧
    TensorPipeAgent.send staleAfterWrapState 2 "workerC" sampleRequest =
      Except.ok wrapCollidedOut ∧
    ((lookupEntry 1 wrapCollidedOut.state.connectedPipes).map
      (fun p => lookupEntry 0 p.pendingResponseMessage)) = some (some 0) ∧
    ((lookupEntry 2 wrapCollidedOut.state.connectedPipes).map
      (fun p => lookupEntry 0 p.pendingResponseMessage)) = some (some 1) ∧
    ¬ (flatKeys wrapCollidedOut.state.connectedPipes).Nodup :=
  ⟨rfl, rfl, rfl, rfl, by decide⟩
